import Mathlib

/-!
# BioDynaMo `DisplacementOpCuda`: a shallow embedding

The development embeds `src/core/operation/displacement_op_cuda.h`:

* `IsNonSphericalObjectPresent`, the functors `Foo` (attribute extraction) and
  `Bar` (position commit),
* `DisplacementOpCuda::operator()`: the NUMA offset table, the grid bridge, the
  device-buffer management and the kernel hand-off.

Conventions.

* `uint32_t` values are natural numbers reduced modulo `2 ^ 32` wherever the
  source stores into a 32-bit variable.
* `double` values are rationals: every `double` operation the embedded code
  performs itself (copy, one addition, comparison) is taken exactly.
  `1.25 * n` followed by `static_cast<uint32_t>` is exact in binary floating
  point for the 32-bit counts in question and is the quotient `5 * n / 4`.
* A `std::vector` is a `List`; an access outside its bounds is undefined
  behaviour in the source and is an explicit failure here.
-/

set_option autoImplicit false

namespace bdm

/-! ## Machine integers -/

/-- Number of values of a `uint32_t`. -/
def UINT32_SIZE : Nat := 2 ^ 32

/-- Storing a natural number into a `uint32_t`. -/
def toUInt32 (n : Nat) : Nat := n % UINT32_SIZE

/-! ## Handles and the NUMA offset table -/

/-- Modelled from the spec: `SoHandle` (`core/resource_manager.h` is not among
the sources), the opaque handle (NUMA node, element index) of an agent, read
through `GetNumaNode()` and `GetElementIdx()`. -/
structure SoHandle where
  numa_node : Nat
  element_idx : Nat
  deriving DecidableEq, Repr

/-- Modelled from the spec: `rm->GetNumSimObjects(nn)` (the resource manager is
not among the sources), the number of agents of NUMA node `nn`, read off the
vector of per-node counts. -/
def GetNumSimObjects (counts : List Nat) (nn : Nat) : Nat :=
  counts.getD nn 0

/-- Modelled from the spec: `rm->GetNumSimObjects()` (the resource manager is
not among the sources), the number of agents of all NUMA nodes. -/
def GetNumSimObjectsTotal (counts : List Nat) : Nat :=
  counts.sum

/-- One iteration of the loop of lines 129-131:
`offset[nn] = offset[nn - 1] + rm->GetNumSimObjects(nn)`. -/
def offsetLoopBody (counts : List Nat) (offset : List Nat) (nn : Nat) : List Nat :=
  offset.set nn (toUInt32 (offset.getD (nn - 1) 0 + GetNumSimObjects counts nn))

/-- Lines 126-131 of `DisplacementOpCuda::operator()`: the offset table for
`counts.length` NUMA nodes. The vector is created zero-filled, `offset[0] = 0`
is stored, and the loop runs over `nn = 1, ..., num_numa_nodes - 2`
(its condition is `nn < num_numa_nodes - 1`). -/
def buildOffset (counts : List Nat) : List Nat :=
  let num_numa_nodes := counts.length
  let offset := (List.replicate num_numa_nodes 0).set 0 0
  (List.range' 1 (num_numa_nodes - 1 - 1)).foldl (offsetLoopBody counts) offset

/-- The flat index of line 101 of `Foo::operator()`:
`offset[soh.GetNumaNode()] + soh.GetElementIdx()`, in 32-bit arithmetic;
`none` when the NUMA node is outside the offset table. -/
def flatIndex (offset : List Nat) (soh : SoHandle) : Option Nat :=
  (offset.get? soh.numa_node).map (fun o => toUInt32 (o + soh.element_idx))

/-- The offset table of the specification: the exclusive prefix sum of the
per-node counts, `offset[d] = count[0] + ... + count[d-1]`. -/
def prefixSumOffset (counts : List Nat) : List Nat :=
  (List.range counts.length).map (fun d => (counts.take d).sum)

/-- A handle `(d, i)` names an agent of the population with the given counts. -/
def validHandle (counts : List Nat) (soh : SoHandle) : Prop :=
  soh.numa_node < counts.length ∧ soh.element_idx < GetNumSimObjects counts soh.numa_node

instance (counts : List Nat) (soh : SoHandle) : Decidable (validHandle counts soh) := by
  unfold validHandle; infer_instance

/-! ## Agents -/

/-- Modelled from the spec: `Shape` (`core/shape.h` is not among the sources).
An agent is spherical or it is not. -/
inductive Shape where
  | kSphere
  | kCylinder
  deriving DecidableEq, Repr

/-- `Double3`, also `std::array<double, 3>`: three coordinates. -/
structure Double3 where
  c0 : ℚ
  c1 : ℚ
  c2 : ℚ
  deriving DecidableEq

/-- The value-initialised `Double3`. -/
def Double3.zero : Double3 := ⟨0, 0, 0⟩

instance : Inhabited Double3 := ⟨Double3.zero⟩

/-- Coordinate-wise sum. -/
def Double3.add (a b : Double3) : Double3 :=
  ⟨a.c0 + b.c0, a.c1 + b.c1, a.c2 + b.c2⟩

/-- The coordinate `p[k]`. -/
def Double3.get (a : Double3) (k : Fin 3) : ℚ :=
  match k with
  | 0 => a.c0
  | 1 => a.c1
  | 2 => a.c2

/-- Modelled from the spec: `SimObject` and `Cell` (`core/sim_object/cell.h` is
not among the sources) as the operation reads them: the shape of `GetShape()`
and the attributes `Foo::operator()` gathers. -/
structure Cell where
  shape : Shape
  position : Double3
  diameter : ℚ
  adherence : ℚ
  tractor_force : Double3
  mass : ℚ
  box_idx : Nat
  deriving DecidableEq

/-- Lines 34-38, `IsNonSphericalObjectPresent(so, answer)`: the new value of
`*answer`. It is set for a non-spherical object and never cleared. -/
def IsNonSphericalObjectPresent (so : Cell) (answer : Bool) : Bool :=
  if so.shape ≠ Shape.kSphere then true else answer

/-- Modelled from the spec: `Cell::UpdatePosition` (`core/sim_object/cell.h` is
not among the sources). The committed position is the pre-step position plus
the displacement handed over. -/
def Cell.UpdatePosition (cell : Cell) (delta : Double3) : Cell :=
  { cell with position := cell.position.add delta }

/-- Clamp of one coordinate into `[lb, rb]`. -/
def clampCoord (lb rb c : ℚ) : ℚ :=
  if c < lb then lb else if rb < c then rb else c

/-- Modelled from the spec: `ApplyBoundingBox` (`core/operation/bound_space_op.h`
is not among the sources). Each coordinate of the position is clamped into
`[lb, rb]`; nothing else changes. -/
def ApplyBoundingBox (so : Cell) (lb rb : ℚ) : Cell :=
  { so with position :=
      ⟨clampCoord lb rb so.position.c0, clampCoord lb rb so.position.c1,
        clampCoord lb rb so.position.c2⟩ }

/-! ## `Bar`: the position committer -/

/-- The functor `Bar` (lines 40-52). -/
structure Bar where
  bound_space : Bool
  min_bound : ℚ
  max_bound : ℚ
  cell_movements : List Double3

/-- Lines 54-65, `Bar::operator()(so, soh)`: the object after the call. The
index is `soh.GetElementIdx()`; `none` when it is outside `cell_movements`. -/
def Bar.call (b : Bar) (so : Cell) (soh : SoHandle) : Option Cell :=
  let idx := soh.element_idx
  match b.cell_movements.get? idx with
  | none => none
  | some m =>
    let new_pos : Double3 := ⟨m.c0, m.c1, m.c2⟩
    let cell := so.UpdatePosition new_pos
    if b.bound_space then
      some (ApplyBoundingBox cell b.min_bound b.max_bound)
    else
      some cell

/-! ## `Foo`: the attribute extractor -/

/-- The functor `Foo` (lines 68-77). -/
structure Foo where
  is_non_spherical_object : Bool
  cell_positions : List Double3
  cell_diameters : List ℚ
  cell_adherence : List ℚ
  cell_tractor_force : List Double3
  cell_boxid : List Nat
  mass : List ℚ
  successors : List Nat
  offset : List Nat
  deriving DecidableEq

/-- Lines 79-88, the constructor of `Foo`: every array is resized to
`num_objects` value-initialised entries. -/
def Foo.init (num_objects : Nat) (offs : List Nat) : Foo where
  is_non_spherical_object := false
  cell_positions := List.replicate num_objects Double3.zero
  cell_diameters := List.replicate num_objects 0
  cell_adherence := List.replicate num_objects 0
  cell_tractor_force := List.replicate num_objects Double3.zero
  cell_boxid := List.replicate num_objects 0
  mass := List.replicate num_objects 0
  successors := List.replicate num_objects 0
  offset := offs

/-- The index is inside each of the seven arrays `Foo::operator()` writes. -/
def Foo.inBounds (f : Foo) (idx : Nat) : Bool :=
  decide (idx < f.mass.length) && decide (idx < f.cell_diameters.length)
    && decide (idx < f.cell_adherence.length) && decide (idx < f.cell_tractor_force.length)
    && decide (idx < f.cell_positions.length) && decide (idx < f.cell_boxid.length)
    && decide (idx < f.successors.length)

/-- What one call of `Foo::operator()` does. -/
inductive FooOutcome where
  /-- The attributes were written; the extractor after the call. -/
  | done (f : Foo)
  /-- The call went through `Log::Fatal` without writing. -/
  | fatal (f : Foo)
  /-- The call read or wrote outside an array: undefined behaviour. -/
  | undefined
  deriving DecidableEq

/-- Modelled from the spec: `Log::Fatal` (`core/util/log.h` is not among the
sources). The original "logs a fatal condition per offending agent" and does
not halt the surrounding iteration: the condition is logged and control comes
back to the caller, whose next statement is the `return;` of line 98. The
outcome records the logged condition and the extractor as it stands. -/
def LogFatal (f : Foo) : FooOutcome := FooOutcome.fatal f

/-- Lines 90-111, `Foo::operator()(so, soh)`. The argument `successors_` is
`grid->successors_`, the successor handle of every agent. -/
def Foo.call (successors_ : SoHandle → SoHandle) (f : Foo) (so : Cell) (soh : SoHandle) :
    FooOutcome :=
  let f1 := { f with
    is_non_spherical_object := IsNonSphericalObjectPresent so f.is_non_spherical_object }
  if f1.is_non_spherical_object then
    LogFatal f1
  else
    match f1.offset.get? soh.numa_node with
    | none => FooOutcome.undefined
    | some o =>
      let idx := toUInt32 (o + soh.element_idx)
      if f1.inBounds idx then
        FooOutcome.done { f1 with
          mass := f1.mass.set idx so.mass
          cell_diameters := f1.cell_diameters.set idx so.diameter
          cell_adherence := f1.cell_adherence.set idx so.adherence
          cell_tractor_force := f1.cell_tractor_force.set idx so.tractor_force
          cell_positions := f1.cell_positions.set idx so.position
          cell_boxid := f1.cell_boxid.set idx (toUInt32 so.box_idx)
          successors := f1.successors.set idx (toUInt32 (o + (successors_ soh).element_idx)) }
      else
        FooOutcome.undefined

/-! ## The device buffer manager -/

/-- Modelled from the spec: `DisplacementOpCudaKernel`
(`core/gpu/displacement_op_cuda_kernel.h` is not among the sources), the owner
of the accelerator-resident buffers. Only the sizes it was last asked for are
kept: the object buffers hold `cell_buffers` entries and the box buffers
`grid_buffers` entries. -/
structure DisplacementOpCudaKernel where
  cell_buffers : Nat
  grid_buffers : Nat
  deriving DecidableEq, Repr

/-- The calls `DisplacementOpCuda::operator()` makes on the kernel object while
it manages the buffers. -/
inductive KernelCall where
  /-- The call `new DisplacementOpCudaKernel(num_objects, num_boxes)`. -/
  | construct (num_objects num_boxes : Nat)
  /-- The call `cdo_->ResizeCellBuffers(num_cells)`. -/
  | ResizeCellBuffers (num_cells : Nat)
  /-- The call `cdo_->ResizeGridBuffers(num_boxes)`. -/
  | ResizeGridBuffers (num_boxes : Nat)
  deriving DecidableEq, Repr

/-- The private members of `DisplacementOpCuda` (lines 218-220). -/
structure DisplacementOpCuda where
  cdo_ : Option DisplacementOpCudaKernel
  num_boxes_ : Nat
  total_num_objects_ : Nat
  deriving DecidableEq, Repr

/-- The members as the default member initialisers leave them:
`cdo_ = nullptr`, `num_boxes_ = 0`, `total_num_objects_ = 0`. -/
def DisplacementOpCuda.init : DisplacementOpCuda := ⟨none, 0, 0⟩

/-- The expression `static_cast<uint32_t>(1.25 * n)` of lines 166, 167, 183
and 193: the product is exact and the cast drops the fraction. -/
def growCapacity (n : Nat) : Nat := toUInt32 (5 * n / 4)

/-- Lines 177-186: the object buffers on a later invocation. -/
def resizeCells (cdo : DisplacementOpCudaKernel) (total_num_objects_ total_num_objects : Nat) :
    DisplacementOpCudaKernel × Nat × List KernelCall :=
  if total_num_objects ≥ total_num_objects_ then
    let new_total_num_objects := growCapacity total_num_objects
    ({ cdo with cell_buffers := new_total_num_objects }, new_total_num_objects,
      [KernelCall.ResizeCellBuffers new_total_num_objects])
  else
    (cdo, total_num_objects_, [])

/-- Lines 189-196: the box buffers on a later invocation. -/
def resizeGrid (cdo : DisplacementOpCudaKernel) (num_boxes_ starts_size : Nat) :
    DisplacementOpCudaKernel × Nat × List KernelCall :=
  if starts_size ≥ num_boxes_ then
    let new_num_boxes := growCapacity starts_size
    ({ cdo with grid_buffers := new_num_boxes }, new_num_boxes,
      [KernelCall.ResizeGridBuffers new_num_boxes])
  else
    (cdo, num_boxes_, [])

/-- Lines 161-197 of `DisplacementOpCuda::operator()`: the members after the
buffer management and the calls made on the kernel object, in order.
`total_num_objects` is the 32-bit agent count, `starts_size` is `starts.size()`. -/
def manageBuffers (op : DisplacementOpCuda) (total_num_objects starts_size : Nat) :
    DisplacementOpCuda × List KernelCall :=
  match op.cdo_ with
  | none =>
    let new_total_num_objects := growCapacity total_num_objects
    let new_num_boxes := growCapacity starts_size
    ({ cdo_ := some ⟨new_total_num_objects, new_num_boxes⟩
       num_boxes_ := new_num_boxes
       total_num_objects_ := new_total_num_objects },
      [KernelCall.construct new_total_num_objects new_num_boxes])
  | some cdo =>
    let r1 := resizeCells cdo op.total_num_objects_ total_num_objects
    let r2 := resizeGrid r1.1 op.num_boxes_ starts_size
    ({ cdo_ := some r2.1, num_boxes_ := r2.2.1, total_num_objects_ := r1.2.1 },
      r1.2.2 ++ r2.2.2)

/-- The object buffers were reallocated by one of the calls. -/
def resizedCells (calls : List KernelCall) : Bool :=
  calls.any fun c => match c with
    | KernelCall.ResizeCellBuffers _ => true
    | _ => false

/-- The box buffers were reallocated by one of the calls. -/
def resizedGrid (calls : List KernelCall) : Bool :=
  calls.any fun c => match c with
    | KernelCall.ResizeGridBuffers _ => true
    | _ => false

/-- The members after a sequence of invocations, starting from a fresh
operation; each invocation is given by its agent count and its box count. -/
def runBuffers (invocations : List (Nat × Nat)) : DisplacementOpCuda :=
  invocations.foldl (fun op inv => (manageBuffers op inv.1 inv.2).1) DisplacementOpCuda.init

/-! ## The step -/

/-- Modelled from the spec: a box of the neighbour grid (the grid is not among
the sources): the handle `start_` of its first agent and its length. -/
structure Box where
  start_ : SoHandle
  length_ : Nat
  deriving DecidableEq, Repr

/-- Modelled from the spec: the neighbour grid (not among the sources) as the
operation reads it: `boxes_`, `successors_`, `GetLargestObjectSize()` and the
three results of `GetGridInfo`. -/
structure Grid where
  boxes_ : List Box
  successors_ : SoHandle → SoHandle
  largest_object_size : ℚ
  box_length : Nat
  num_boxes_axis : Nat × Nat × Nat
  grid_dimensions : Int × Int × Int

/-- Modelled from the spec: `Param` (not among the sources), the simulation
parameters the operation reads. -/
structure Param where
  simulation_time_step_ : ℚ
  simulation_max_displacement_ : ℚ
  bound_space_ : Bool
  min_bound_ : ℚ
  max_bound_ : ℚ

/-- The arguments of `LaunchDisplacementKernel` (lines 199-206), the output
array apart. -/
structure KernelArgs where
  cell_positions : List Double3
  cell_diameters : List ℚ
  cell_tractor_force : List Double3
  cell_adherence : List ℚ
  cell_boxid : List Nat
  mass : List ℚ
  simulation_time_step : ℚ
  simulation_max_displacement : ℚ
  squared_radius : ℚ
  total_num_objects : Nat
  starts : List Nat
  lengths : List Nat
  successors : List Nat
  box_length : Nat
  num_boxes_axis : Nat × Nat × Nat
  grid_dimensions : Int × Int × Int

/-- Modelled from the spec: `LaunchDisplacementKernel` (the kernel is not among
the sources), a deterministic function of its arguments: the displacement it
writes at each flat index. -/
abbrev Kernel := KernelArgs → Nat → Double3

/-- The extractor a call of `Foo::operator()` leaves behind when it returns. -/
def FooOutcome.extractor : FooOutcome → Option Foo
  | FooOutcome.done f => some f
  | FooOutcome.fatal f => some f
  | FooOutcome.undefined => none

/-- Modelled from the spec: `ApplyOnAllElementsParallelDynamic(1000, f)` (the
resource manager is not among the sources) for `f : Foo`, applied to the agents
of one NUMA node from element index `i` on: the extractor after the calls. A
call that went through `Log::Fatal` has returned and the traversal goes on;
`none` when a call is undefined. -/
def Foo.applyNode (successors_ : SoHandle → SoHandle) (numa_node : Nat) :
    Nat → List Cell → Foo → Option Foo
  | _, [], f => some f
  | i, so :: rest, f =>
    match (Foo.call successors_ f so ⟨numa_node, i⟩).extractor with
    | some f1 => Foo.applyNode successors_ numa_node (i + 1) rest f1
    | none => none

/-- Modelled from the spec: `ApplyOnAllElementsParallelDynamic(1000, f)` (the
resource manager is not among the sources) for `f : Foo`, applied to every
agent, NUMA node by NUMA node, from node `numa_node` on. -/
def Foo.applyAll (successors_ : SoHandle → SoHandle) :
    Nat → List (List Cell) → Foo → Option Foo
  | _, [], f => some f
  | numa_node, node :: rest, f =>
    match Foo.applyNode successors_ numa_node 0 node f with
    | some f1 => Foo.applyAll successors_ (numa_node + 1) rest f1
    | none => none

/-- Modelled from the spec: `ApplyOnAllElementsParallelDynamic(1000, b)` (the
resource manager is not among the sources) for `b : Bar`, applied to the agents
of one NUMA node from element index `i` on: the agents after the calls. -/
def Bar.applyNode (b : Bar) (numa_node : Nat) : Nat → List Cell → Option (List Cell)
  | _, [] => some []
  | i, so :: rest =>
    match b.call so ⟨numa_node, i⟩, Bar.applyNode b numa_node (i + 1) rest with
    | some so1, some rest1 => some (so1 :: rest1)
    | _, _ => none

/-- Modelled from the spec: `ApplyOnAllElementsParallelDynamic(1000, b)` (the
resource manager is not among the sources) for `b : Bar`, applied to every
agent. -/
def Bar.applyAll (b : Bar) : Nat → List (List Cell) → Option (List (List Cell))
  | _, [] => some []
  | numa_node, node :: rest =>
    match Bar.applyNode b numa_node 0 node, Bar.applyAll b (numa_node + 1) rest with
    | some node1, some rest1 => some (node1 :: rest1)
    | _, _ => none

/-- How one invocation of `DisplacementOpCuda::operator()` ends. -/
inductive StepResult where
  /-- All phases ran and no fatal condition was logged: the agents and the
  members after the step. -/
  | completed (sim_objects : List (List Cell)) (op : DisplacementOpCuda)
  /-- The extraction logged a shape violation through `Log::Fatal`: the agents
  and the members when the invocation ends. -/
  | shapeViolation (sim_objects : List (List Cell)) (op : DisplacementOpCuda)
  /-- An array was accessed outside its bounds: undefined behaviour. -/
  | undefined
  deriving DecidableEq

/-- Lines 151-158: the `starts` array, one entry per box. -/
def gridStarts (grid : Grid) : List Nat :=
  grid.boxes_.map fun box => toUInt32 box.start_.element_idx

/-- Lines 151-158: the `lengths` array (`uint16_t`), one entry per box. -/
def gridLengths (grid : Grid) : List Nat :=
  grid.boxes_.map fun box => box.length_ % 2 ^ 16

/-- `DisplacementOpCuda::operator()` (lines 120-215). `sim_objects` holds the
agents of the resource manager, one list per NUMA node. No statement of lines
148-214 reads `f.is_non_spherical_object` or returns early; the flag is used
here only to tell, in the result, whether `Log::Fatal` was called. -/
def DisplacementOpCuda.call (kernel : Kernel) (grid : Grid) (param : Param)
    (op : DisplacementOpCuda) (sim_objects : List (List Cell)) : StepResult :=
  let counts := sim_objects.map List.length
  let offset := buildOffset counts
  let total_num_objects := toUInt32 (GetNumSimObjectsTotal counts)
  let squared_radius := grid.largest_object_size * grid.largest_object_size
  match Foo.applyAll grid.successors_ 0 sim_objects (Foo.init total_num_objects offset) with
  | none => StepResult.undefined
  | some f =>
    let starts := gridStarts grid
    let lengths := gridLengths grid
    let op1 := (manageBuffers op total_num_objects starts.length).1
    let args : KernelArgs :=
      { cell_positions := f.cell_positions
        cell_diameters := f.cell_diameters
        cell_tractor_force := f.cell_tractor_force
        cell_adherence := f.cell_adherence
        cell_boxid := f.cell_boxid
        mass := f.mass
        simulation_time_step := param.simulation_time_step_
        simulation_max_displacement := param.simulation_max_displacement_
        squared_radius := squared_radius
        total_num_objects := total_num_objects
        starts := starts
        lengths := lengths
        successors := f.successors
        box_length := grid.box_length
        num_boxes_axis := grid.num_boxes_axis
        grid_dimensions := grid.grid_dimensions }
    let cell_movements := (List.range total_num_objects).map (kernel args)
    let b : Bar := ⟨param.bound_space_, param.min_bound_, param.max_bound_, cell_movements⟩
    match Bar.applyAll b 0 sim_objects with
    | none => StepResult.undefined
    | some objs =>
      if f.is_non_spherical_object then
        StepResult.shapeViolation objs op1
      else
        StepResult.completed objs op1

/-- The positions of all agents, NUMA node by NUMA node. -/
def positions (sim_objects : List (List Cell)) : List (List Double3) :=
  sim_objects.map fun node => node.map fun so => so.position

/-- The positions of the agents when the invocation ends, if it is defined. -/
def StepResult.positions : StepResult → Option (List (List Double3))
  | StepResult.completed objs _ => some (bdm.positions objs)
  | StepResult.shapeViolation objs _ => some (bdm.positions objs)
  | StepResult.undefined => none

/-- A spherical agent at a position, diameter 1, no tractor force. -/
def sphereAt (p : Double3) : Cell :=
  { shape := Shape.kSphere, position := p, diameter := 1, adherence := 0,
    tractor_force := Double3.zero, mass := 1, box_idx := 0 }

/-- A non-spherical agent at a position. -/
def cylinderAt (p : Double3) : Cell :=
  { sphereAt p with shape := Shape.kCylinder }

/-- A grid with one box in which no agent has a successor other than itself. -/
def plainGrid : Grid :=
  { boxes_ := [⟨⟨0, 0⟩, 1⟩], successors_ := fun soh => soh, largest_object_size := 1,
    box_length := 1, num_boxes_axis := (1, 1, 1), grid_dimensions := (0, 0, 0) }

/-- Parameters with the bounding disabled. -/
def unboundParam : Param :=
  { simulation_time_step_ := 1, simulation_max_displacement_ := 3, bound_space_ := false,
    min_bound_ := 0, max_bound_ := 1 }

/-- A kernel stub whose displacement at flat index `j` is `(j + 1, 0, 0)`. -/
def rampKernel : Kernel := fun _ j => ⟨(j : ℚ) + 1, 0, 0⟩

/-- A kernel stub with displacement `(0.1, 0, 0)` at flat index 0 and
`(-0.1, 0, 0)` elsewhere. -/
def pairKernel : Kernel := fun _ j => if j = 0 then ⟨1 / 10, 0, 0⟩ else ⟨-1 / 10, 0, 0⟩

/-- A successor map in which the successor of agent `(1, 0)` is agent `(0, 0)`
and the successor of every other agent is agent `(1, 0)`. -/
def crossSuccessors : SoHandle → SoHandle := fun soh =>
  if soh = ⟨1, 0⟩ then ⟨0, 0⟩ else ⟨1, 0⟩

/-- The successor array after one call of `Foo::operator()`, if it wrote. -/
def FooOutcome.successors : FooOutcome → Option (List Nat)
  | FooOutcome.done f => some f.successors
  | _ => none

/-- Calls of `Foo::operator()` on the same extractor, one after the other in
the order of the list, for as long as the calls write: the result is that of
the last call, or of the first call that did not write. -/
def Foo.callSeq (successors_ : SoHandle → SoHandle) : List (Cell × SoHandle) → Foo → FooOutcome
  | [], f => FooOutcome.done f
  | (so, soh) :: rest, f =>
    match Foo.call successors_ f so soh with
    | FooOutcome.done f1 => Foo.callSeq successors_ rest f1
    | FooOutcome.fatal f1 => FooOutcome.fatal f1
    | FooOutcome.undefined => FooOutcome.undefined

/-- An array after a write at `idx`: it has the size it had, entry `idx` holds
`v`, and every other entry is what it was. -/
def writtenAt {α : Type} (before after : List α) (idx : Nat) (v : α) : Prop :=
  after.length = before.length ∧ after[idx]? = some v ∧
    ∀ j : Nat, j ≠ idx → after[j]? = before[j]?

/-- A grid with three boxes of one agent each, one box per NUMA node. -/
def threeNodeGrid : Grid :=
  { boxes_ := [⟨⟨0, 0⟩, 1⟩, ⟨⟨1, 0⟩, 1⟩, ⟨⟨2, 0⟩, 1⟩], successors_ := fun soh => soh,
    largest_object_size := 1, box_length := 1, num_boxes_axis := (3, 1, 1),
    grid_dimensions := (0, 0, 0) }

/-! ## The offset table and the flat index -/

/-- C9: the offset table built by lines 126-131 is not the exclusive prefix sum
of the per-node counts. For two NUMA nodes with 3 and 4 agents the table is
`[0, 0]` where the prefix sum is `[0, 3]`; for three nodes with 3, 4 and 5
agents it is `[0, 4, 0]` where the prefix sum is `[0, 3, 7]`: the loop stops one
node early and adds the count of node `nn` instead of node `nn - 1`. -/
theorem C9_offset_table_at_failing_input :
    buildOffset [3, 4] = [0, 0] ∧ prefixSumOffset [3, 4] = [0, 3] ∧
    buildOffset [3, 4, 5] = [0, 4, 0] ∧ prefixSumOffset [3, 4, 5] = [0, 3, 7] := by
  decide

/-- C1: with the offset table of lines 126-131 the flat index is not a
bijection onto `[0, total)`. For two NUMA nodes with one agent each, the agents
`(0, 0)` and `(1, 0)` both get flat index 0; for three nodes with 0, 2 and 0
agents, agent `(1, 1)` gets flat index 3, which is not below the total 2. -/
theorem C1_flat_index_at_failing_input :
    validHandle [1, 1] ⟨0, 0⟩ ∧ validHandle [1, 1] ⟨1, 0⟩ ∧
    flatIndex (buildOffset [1, 1]) ⟨0, 0⟩ = some 0 ∧
    flatIndex (buildOffset [1, 1]) ⟨1, 0⟩ = some 0 ∧
    validHandle [0, 2, 0] ⟨1, 1⟩ ∧
    flatIndex (buildOffset [0, 2, 0]) ⟨1, 1⟩ = some 3 ∧
    GetNumSimObjectsTotal [0, 2, 0] = 2 := by
  decide

/-! ## Extraction and commit at concrete inputs -/

/-- C2: the committer reads the displacement at the element index, not at the
flat index. Three NUMA nodes hold one agent each, at `(0,0,0)`, `(10,0,0)` and
`(20,0,0)`; the kernel writes `(j + 1, 0, 0)` at flat index `j`. Agent `(1, 0)`
has flat index 1, where the kernel wrote `(2, 0, 0)`, and ends at `(11, 0, 0)`,
not at `(12, 0, 0)`. With a single NUMA node the scenario of the
specification comes out as stated: `(0.1, 0, 0)` and `(1.9, 0, 0)`. -/
theorem C2_commit_at_failing_input :
    flatIndex (buildOffset [1, 1, 1]) ⟨1, 0⟩ = some 1 ∧
    (∀ args, rampKernel args 1 = ⟨2, 0, 0⟩) ∧
    (DisplacementOpCuda.call rampKernel plainGrid unboundParam DisplacementOpCuda.init
      [[sphereAt ⟨0, 0, 0⟩], [sphereAt ⟨10, 0, 0⟩], [sphereAt ⟨20, 0, 0⟩]]).positions
      = some [[⟨1, 0, 0⟩], [⟨11, 0, 0⟩], [⟨21, 0, 0⟩]] ∧
    (DisplacementOpCuda.call pairKernel plainGrid unboundParam DisplacementOpCuda.init
      [[sphereAt ⟨0, 0, 0⟩, sphereAt ⟨2, 0, 0⟩]]).positions
      = some [[⟨1 / 10, 0, 0⟩, ⟨19 / 10, 0, 0⟩]] := by
  refine ⟨by decide, fun _ => ?_, by decide!, by decide!⟩
  simp only [rampKernel, Nat.cast_one]
  norm_num

/-- C3: the successor is translated with the offset of the agent's own NUMA
node. With the offset table `[0, 1, 0]` of three nodes with one agent each,
agent `(1, 0)` whose successor is agent `(0, 0)` (flat index 0) gets the
successor value 1 at its flat index 1; agent `(0, 0)` whose successor is agent
`(1, 0)` (flat index 1) gets the successor value 0. -/
theorem C3_successor_at_failing_input :
    buildOffset [1, 1, 1] = [0, 1, 0] ∧
    flatIndex (buildOffset [1, 1, 1]) ⟨0, 0⟩ = some 0 ∧
    flatIndex (buildOffset [1, 1, 1]) ⟨1, 0⟩ = some 1 ∧
    (Foo.call crossSuccessors (Foo.init 3 (buildOffset [1, 1, 1]))
      (sphereAt ⟨10, 0, 0⟩) ⟨1, 0⟩).successors = some [0, 1, 0] ∧
    (Foo.call crossSuccessors (Foo.init 3 (buildOffset [1, 1, 1]))
      (sphereAt ⟨0, 0, 0⟩) ⟨0, 0⟩).successors = some [0, 0, 0] := by
  decide!

/-! ## The device buffer manager: capacities -/

theorem toUInt32_of_lt {n : Nat} (h : n < 2 ^ 32) : toUInt32 n = n := by
  unfold toUInt32 UINT32_SIZE
  exact Nat.mod_eq_of_lt h

theorem growCapacity_of_fits {n : Nat} (h : 5 * n / 4 < 2 ^ 32) :
    growCapacity n = 5 * n / 4 := by
  unfold growCapacity
  exact toUInt32_of_lt h

theorem le_growCapacity {n : Nat} (h : 5 * n / 4 < 2 ^ 32) : n ≤ growCapacity n := by
  rw [growCapacity_of_fits h]
  omega

/-- The quotient `5 * n / 4` is the floor of `1.25 * n`. -/
theorem floor_five_quarters (n : Nat) : ⌊(5 / 4 : ℚ) * (n : ℚ)⌋₊ = 5 * n / 4 := by
  have h : (5 / 4 : ℚ) * (n : ℚ) = ((5 * n : ℕ) : ℚ) / ((4 : ℕ) : ℚ) := by
    push_cast
    ring
  rw [h, Nat.floor_div_eq_div]

theorem manageBuffers_none (op : DisplacementOpCuda) (n b : Nat) (h : op.cdo_ = none) :
    (manageBuffers op n b).1 =
      ⟨some ⟨growCapacity n, growCapacity b⟩, growCapacity b, growCapacity n⟩ := by
  unfold manageBuffers
  rw [h]

theorem manageBuffers_some_objects (op : DisplacementOpCuda) (cdo : DisplacementOpCudaKernel)
    (n b : Nat) (h : op.cdo_ = some cdo) :
    (manageBuffers op n b).1.total_num_objects_ =
      if n ≥ op.total_num_objects_ then growCapacity n else op.total_num_objects_ := by
  unfold manageBuffers
  rw [h]
  simp only [resizeCells]
  split_ifs <;> rfl

theorem manageBuffers_some_boxes (op : DisplacementOpCuda) (cdo : DisplacementOpCudaKernel)
    (n b : Nat) (h : op.cdo_ = some cdo) :
    (manageBuffers op n b).1.num_boxes_ =
      if b ≥ op.num_boxes_ then growCapacity b else op.num_boxes_ := by
  unfold manageBuffers
  rw [h]
  simp only [resizeGrid]
  split_ifs <;> rfl

theorem manageBuffers_allocated (op : DisplacementOpCuda) (n b : Nat) :
    (manageBuffers op n b).1.cdo_ ≠ none := by
  unfold manageBuffers
  cases op.cdo_ <;> simp

/-- A fresh operation has no kernel object and both capacities are 0; the
capacities stay 0 for as long as there is no kernel object. -/
theorem runBuffers_fresh (invocations : List (Nat × Nat)) :
    (runBuffers invocations).cdo_ = none →
      (runBuffers invocations).total_num_objects_ = 0 ∧ (runBuffers invocations).num_boxes_ = 0 := by
  induction invocations using List.reverseRecOn with
  | nil => intro _; exact ⟨rfl, rfl⟩
  | append_singleton l inv _ =>
    intro h
    unfold runBuffers at h
    rw [List.foldl_append] at h
    exact absurd h (manageBuffers_allocated _ _ _)

theorem runBuffers_append (invocations : List (Nat × Nat)) (n b : Nat) :
    runBuffers (invocations ++ [(n, b)]) = (manageBuffers (runBuffers invocations) n b).1 := by
  unfold runBuffers
  rw [List.foldl_append]
  rfl

/-- C4: for every prior state of the members and all counts whose 1.25-fold
fits in 32 bits, after the buffer management the object capacity is at least
the agent count and the box capacity is at least the box count. -/
theorem C4_capacity_covers_counts (op : DisplacementOpCuda) (n b : Nat)
    (hn : 5 * n / 4 < 2 ^ 32) (hb : 5 * b / 4 < 2 ^ 32) :
    n ≤ (manageBuffers op n b).1.total_num_objects_ ∧
      b ≤ (manageBuffers op n b).1.num_boxes_ := by
  cases h : op.cdo_ with
  | none =>
    rw [manageBuffers_none op n b h]
    exact ⟨le_growCapacity hn, le_growCapacity hb⟩
  | some cdo =>
    rw [manageBuffers_some_objects op cdo n b h, manageBuffers_some_boxes op cdo n b h]
    constructor
    · split_ifs with hc
      · exact le_growCapacity hn
      · omega
    · split_ifs with hc
      · exact le_growCapacity hb
      · omega

/-- Witness of C4: a first invocation with 100 agents and 10 boxes. -/
theorem C4_capacity_covers_counts_witness :
    100 ≤ (manageBuffers DisplacementOpCuda.init 100 10).1.total_num_objects_ ∧
      10 ≤ (manageBuffers DisplacementOpCuda.init 100 10).1.num_boxes_ :=
  C4_capacity_covers_counts DisplacementOpCuda.init 100 10 (by decide) (by decide)

/-- C5: along every sequence of invocations of a fresh operation, one more
invocation (with counts whose 1.25-fold fits in 32 bits) does not decrease the
object capacity nor the box capacity, whatever the counts are. -/
theorem C5_capacity_never_decreases (invocations : List (Nat × Nat)) (n b : Nat)
    (hn : 5 * n / 4 < 2 ^ 32) (hb : 5 * b / 4 < 2 ^ 32) :
    (runBuffers invocations).total_num_objects_
        ≤ (runBuffers (invocations ++ [(n, b)])).total_num_objects_ ∧
      (runBuffers invocations).num_boxes_
        ≤ (runBuffers (invocations ++ [(n, b)])).num_boxes_ := by
  rw [runBuffers_append]
  cases h : (runBuffers invocations).cdo_ with
  | none =>
    obtain ⟨h1, h2⟩ := runBuffers_fresh invocations h
    rw [h1, h2]
    exact ⟨Nat.zero_le _, Nat.zero_le _⟩
  | some cdo =>
    rw [manageBuffers_some_objects _ cdo n b h, manageBuffers_some_boxes _ cdo n b h]
    constructor
    · split_ifs with hc
      · exact le_trans hc (le_growCapacity hn)
      · exact le_refl _
    · split_ifs with hc
      · exact le_trans hc (le_growCapacity hb)
      · exact le_refl _

/-- Witness of C5: after invocations with 100 agents and 10 boxes and then 200
agents and 20 boxes, an invocation with 5 agents and 1 box keeps the capacities
250 and 25. -/
theorem C5_capacity_never_decreases_witness :
    (runBuffers [(100, 10), (200, 20)]).total_num_objects_
        ≤ (runBuffers ([(100, 10), (200, 20)] ++ [(5, 1)])).total_num_objects_ ∧
      (runBuffers [(100, 10), (200, 20)]).num_boxes_
        ≤ (runBuffers ([(100, 10), (200, 20)] ++ [(5, 1)])).num_boxes_ :=
  C5_capacity_never_decreases [(100, 10), (200, 20)] 5 1 (by decide) (by decide)

/-- C6, as stated, fails: the first invocation with 100 agents and 10 boxes
sets the box capacity to 12, below the ceiling 13 of `1.25 * 10`. -/
theorem C6_ceiling_counterexample :
    DisplacementOpCuda.init.cdo_ = none ∧
      ¬ (⌈(5 / 4 : ℚ) * ((10 : ℕ) : ℚ)⌉₊
          ≤ (manageBuffers DisplacementOpCuda.init 100 10).1.num_boxes_) := by
  have h : (manageBuffers DisplacementOpCuda.init 100 10).1.num_boxes_ = 12 := by decide
  refine ⟨rfl, ?_⟩
  rw [h, not_le, Nat.lt_ceil]
  norm_num

/-- C6, amended: whenever an invocation sets a capacity (there is no kernel
object yet, or the count has reached the stored capacity), the new object
capacity is the floor of `1.25 * total_agent_count` and the new box capacity is
the floor of `1.25 * box_count`, for counts whose 1.25-fold fits in 32 bits. -/
theorem C6_capacity_is_floor (op : DisplacementOpCuda) (n b : Nat)
    (hn : 5 * n / 4 < 2 ^ 32) (hb : 5 * b / 4 < 2 ^ 32) :
    ((op.cdo_ = none ∨ n ≥ op.total_num_objects_) →
        (manageBuffers op n b).1.total_num_objects_ = ⌊(5 / 4 : ℚ) * (n : ℚ)⌋₊) ∧
      ((op.cdo_ = none ∨ b ≥ op.num_boxes_) →
        (manageBuffers op n b).1.num_boxes_ = ⌊(5 / 4 : ℚ) * (b : ℚ)⌋₊) := by
  rw [floor_five_quarters, floor_five_quarters, ← growCapacity_of_fits hn,
    ← growCapacity_of_fits hb]
  cases h : op.cdo_ with
  | none =>
    rw [manageBuffers_none op n b h]
    exact ⟨fun _ => rfl, fun _ => rfl⟩
  | some cdo =>
    rw [manageBuffers_some_objects op cdo n b h, manageBuffers_some_boxes op cdo n b h]
    constructor
    · rintro (hc | hc)
      · exact absurd hc (by simp)
      · rw [if_pos hc]
    · rintro (hc | hc)
      · exact absurd hc (by simp)
      · rw [if_pos hc]

/-- Witness of the amended C6: a first invocation with 100 agents and 10 boxes
sets the object capacity to 125 and the box capacity to 12. -/
theorem C6_capacity_is_floor_witness :
    ((manageBuffers DisplacementOpCuda.init 100 10).1.total_num_objects_
        = ⌊(5 / 4 : ℚ) * ((100 : ℕ) : ℚ)⌋₊ ∧
      (manageBuffers DisplacementOpCuda.init 100 10).1.num_boxes_
        = ⌊(5 / 4 : ℚ) * ((10 : ℕ) : ℚ)⌋₊) ∧
    (manageBuffers DisplacementOpCuda.init 100 10).1.total_num_objects_ = 125 ∧
      (manageBuffers DisplacementOpCuda.init 100 10).1.num_boxes_ = 12 :=
  ⟨⟨(C6_capacity_is_floor DisplacementOpCuda.init 100 10 (by decide) (by decide)).1 (Or.inl rfl),
      (C6_capacity_is_floor DisplacementOpCuda.init 100 10 (by decide) (by decide)).2
        (Or.inl rfl)⟩,
    by decide, by decide⟩

/-! ## The device buffer manager: reallocation -/

/-- C10: on an invocation with a kernel object in place, the object buffers
are resized exactly when the agent count has reached the stored object
capacity and the box buffers exactly when the box count has reached the stored
box capacity; a capacity whose buffer is not resized keeps its value. -/
theorem C10_resize_iff_count_reaches_capacity (op : DisplacementOpCuda)
    (cdo : DisplacementOpCudaKernel) (n b : Nat) (h : op.cdo_ = some cdo) :
    (resizedCells (manageBuffers op n b).2 = true ↔ n ≥ op.total_num_objects_) ∧
      (resizedGrid (manageBuffers op n b).2 = true ↔ b ≥ op.num_boxes_) ∧
      (¬ n ≥ op.total_num_objects_ →
        (manageBuffers op n b).1.total_num_objects_ = op.total_num_objects_) ∧
      (¬ b ≥ op.num_boxes_ → (manageBuffers op n b).1.num_boxes_ = op.num_boxes_) := by
  by_cases hc : n ≥ op.total_num_objects_ <;> by_cases hg : b ≥ op.num_boxes_ <;>
    simp [manageBuffers, h, resizeCells, resizeGrid, resizedCells, resizedGrid, hc, hg]

/-- Witness of C10: after a first invocation with 100 agents and 10 boxes, an
invocation with 90 agents and 10 boxes does not resize the object buffers and
keeps the object capacity 125. -/
theorem C10_resize_iff_count_reaches_capacity_witness :
    (manageBuffers DisplacementOpCuda.init 100 10).1.cdo_ = some ⟨125, 12⟩ ∧
      ¬ resizedCells (manageBuffers (manageBuffers DisplacementOpCuda.init 100 10).1 90 10).2
          = true ∧
      (manageBuffers (manageBuffers DisplacementOpCuda.init 100 10).1 90 10).1.total_num_objects_
        = 125 :=
  ⟨by decide,
    fun hr =>
      absurd ((C10_resize_iff_count_reaches_capacity
        (manageBuffers DisplacementOpCuda.init 100 10).1 ⟨125, 12⟩ 90 10 (by decide)).1.mp hr)
        (by decide),
    ((C10_resize_iff_count_reaches_capacity
        (manageBuffers DisplacementOpCuda.init 100 10).1 ⟨125, 12⟩ 90 10 (by decide)).2.2.1
        (by decide)).trans (by decide)⟩

/-! ## The position committer -/

theorem clampCoord_spec (lb rb c : ℚ) (h : lb ≤ rb) :
    lb ≤ clampCoord lb rb c ∧ clampCoord lb rb c ≤ rb ∧
      (c < lb → clampCoord lb rb c = lb) ∧ (rb < c → clampCoord lb rb c = rb) ∧
      (lb ≤ c → c ≤ rb → clampCoord lb rb c = c) := by
  unfold clampCoord
  split_ifs with h1 h2
  · exact ⟨le_refl _, h, fun _ => rfl, fun h3 => absurd (lt_trans h3 h1) (not_lt.mpr h),
      fun h3 _ => absurd h1 (not_lt.mpr h3)⟩
  · exact ⟨h, le_refl _, fun h3 => absurd h3 h1, fun _ => rfl,
      fun _ h3 => absurd h2 (not_lt.mpr h3)⟩
  · exact ⟨not_lt.mp h1, not_lt.mp h2, fun h3 => absurd h3 h1, fun h3 => absurd h3 h2,
      fun _ _ => rfl⟩

/-- C7: one call of `Bar::operator()` whose displacement read is `m`. With
`bound_space = false` the committed position is the updated position
`position + m`, whatever the bounds. With `bound_space = true` (and
`min_bound ≤ max_bound`) every coordinate of the committed position lies in
`[min_bound, max_bound]`: it is `min_bound` if the updated coordinate is below
`min_bound`, `max_bound` if it is above `max_bound`, and the updated coordinate
itself if that lies inside the interval. -/
theorem C7_commit_clamps_when_bound_space (b : Bar) (so : Cell) (soh : SoHandle) (m : Double3)
    (hm : b.cell_movements.get? soh.element_idx = some m) :
    ∃ so1, b.call so soh = some so1 ∧
      (b.bound_space = false → so1.position = so.position.add m) ∧
      (b.bound_space = true → b.min_bound ≤ b.max_bound → ∀ k : Fin 3,
        b.min_bound ≤ so1.position.get k ∧ so1.position.get k ≤ b.max_bound ∧
        ((so.position.add m).get k < b.min_bound → so1.position.get k = b.min_bound) ∧
        (b.max_bound < (so.position.add m).get k → so1.position.get k = b.max_bound) ∧
        (b.min_bound ≤ (so.position.add m).get k → (so.position.add m).get k ≤ b.max_bound →
          so1.position.get k = (so.position.add m).get k)) := by
  cases hbs : b.bound_space with
  | false =>
    refine ⟨so.UpdatePosition m, ?_, fun _ => rfl, fun hc => absurd hc (by simp)⟩
    simp only [Bar.call, hm, hbs]
    rfl
  | true =>
    refine ⟨ApplyBoundingBox (so.UpdatePosition m) b.min_bound b.max_bound, ?_,
      fun hc => absurd hc (by simp), fun _ hle k => ?_⟩
    · simp only [Bar.call, hm, hbs]
      rfl
    · fin_cases k
      · exact clampCoord_spec b.min_bound b.max_bound (so.position.add m).c0 hle
      · exact clampCoord_spec b.min_bound b.max_bound (so.position.add m).c1 hle
      · exact clampCoord_spec b.min_bound b.max_bound (so.position.add m).c2 hle

/-- Witness of C7: with bounds 0 and 1 and the displacement `(-3, 0.5, 7)` read
for an agent at the origin, every committed coordinate lies in `[0, 1]`. -/
theorem C7_commit_clamps_when_bound_space_witness :
    ∃ so1, Bar.call ⟨true, 0, 1, [⟨-3, 1 / 2, 7⟩]⟩ (sphereAt ⟨0, 0, 0⟩) ⟨0, 0⟩ = some so1 ∧
      ∀ k : Fin 3, (0 : ℚ) ≤ so1.position.get k ∧ so1.position.get k ≤ 1 := by
  obtain ⟨so1, h1, _, h3⟩ := C7_commit_clamps_when_bound_space
    ⟨true, 0, 1, [⟨-3, 1 / 2, 7⟩]⟩ (sphereAt ⟨0, 0, 0⟩) ⟨0, 0⟩ ⟨-3, 1 / 2, 7⟩ rfl
  exact ⟨so1, h1, fun k => ⟨(h3 rfl zero_le_one k).1, (h3 rfl zero_le_one k).2.1⟩⟩

/-! ## Non-spherical agents -/

/-- C12: the `starts` array holds the element index of the first agent of each
box, not its flat index. For three NUMA nodes with one agent each (offset table
`[0, 1, 0]`) and one box per node, `starts` is `[0, 0, 0]` where the flat
indices of the first agents are `[0, 1, 0]`: the box of agent `(1, 0)` starts
at 0, not at 1. The arrays have one entry per box, in the order of `boxes_`,
and `lengths` holds the lengths of the boxes. -/
theorem C12_starts_at_failing_input :
    gridStarts threeNodeGrid = [0, 0, 0] ∧
    threeNodeGrid.boxes_.map (fun box => flatIndex (buildOffset [1, 1, 1]) box.start_)
      = [some 0, some 1, some 0] ∧
    threeNodeGrid.boxes_.map (fun box => flatIndex (prefixSumOffset [1, 1, 1]) box.start_)
      = [some 0, some 1, some 2] ∧
    gridLengths threeNodeGrid = [1, 1, 1] := by
  decide

/-! ## One call of the extractor -/

/-- The extractor after `Foo::operator()` has written the attributes of `so`
and the successor value `succ` at index `idx`. -/
theorem Foo.call_spherical (successors_ : SoHandle → SoHandle) (f : Foo) (so : Cell)
    (soh : SoHandle) (o : Nat) (hflag : f.is_non_spherical_object = false)
    (hs : so.shape = Shape.kSphere) (ho : f.offset.get? soh.numa_node = some o)
    (hb : f.inBounds (toUInt32 (o + soh.element_idx)) = true) :
    Foo.call successors_ f so soh = FooOutcome.done
      { is_non_spherical_object := false
        cell_positions := f.cell_positions.set (toUInt32 (o + soh.element_idx)) so.position
        cell_diameters := f.cell_diameters.set (toUInt32 (o + soh.element_idx)) so.diameter
        cell_adherence := f.cell_adherence.set (toUInt32 (o + soh.element_idx)) so.adherence
        cell_tractor_force :=
          f.cell_tractor_force.set (toUInt32 (o + soh.element_idx)) so.tractor_force
        cell_boxid := f.cell_boxid.set (toUInt32 (o + soh.element_idx)) (toUInt32 so.box_idx)
        mass := f.mass.set (toUInt32 (o + soh.element_idx)) so.mass
        successors := f.successors.set (toUInt32 (o + soh.element_idx))
          (toUInt32 (o + (successors_ soh).element_idx))
        offset := f.offset } := by
  have hb1 : Foo.inBounds { f with is_non_spherical_object := false }
      (toUInt32 (o + soh.element_idx)) = true := hb
  simp only [Foo.call, IsNonSphericalObjectPresent, hs, hflag, ho]
  simp only [ne_eq, not_true_eq_false, if_false, Bool.false_eq_true]
  rw [if_pos hb1]

theorem writtenAt_set {α : Type} (l : List α) (idx : Nat) (v : α) (h : idx < l.length) :
    writtenAt l (l.set idx v) idx v :=
  ⟨List.length_set l idx v, List.getElem?_set_self h,
    fun _ hj => List.getElem?_set_ne (Ne.symm hj)⟩

theorem flatIndex_eq_some {offset : List Nat} {soh : SoHandle} {idx : Nat}
    (h : flatIndex offset soh = some idx) :
    ∃ o, offset.get? soh.numa_node = some o ∧ toUInt32 (o + soh.element_idx) = idx := by
  unfold flatIndex at h
  exact Option.map_eq_some'.mp h

/-- Two calls of `Foo::operator()` for spherical agents, one after the other. -/
theorem Foo.callSeq_pair (successors_ : SoHandle → SoHandle) (f : Foo) (so so2 : Cell)
    (soh soh2 : SoHandle) (o o2 : Nat) (hflag : f.is_non_spherical_object = false)
    (hs : so.shape = Shape.kSphere) (hs2 : so2.shape = Shape.kSphere)
    (ho : f.offset.get? soh.numa_node = some o) (ho2 : f.offset.get? soh2.numa_node = some o2)
    (hb : f.inBounds (toUInt32 (o + soh.element_idx)) = true)
    (hb2 : f.inBounds (toUInt32 (o2 + soh2.element_idx)) = true) :
    Foo.callSeq successors_ [(so, soh), (so2, soh2)] f = FooOutcome.done
      { is_non_spherical_object := false
        cell_positions := (f.cell_positions.set (toUInt32 (o + soh.element_idx)) so.position).set
          (toUInt32 (o2 + soh2.element_idx)) so2.position
        cell_diameters := (f.cell_diameters.set (toUInt32 (o + soh.element_idx)) so.diameter).set
          (toUInt32 (o2 + soh2.element_idx)) so2.diameter
        cell_adherence := (f.cell_adherence.set (toUInt32 (o + soh.element_idx)) so.adherence).set
          (toUInt32 (o2 + soh2.element_idx)) so2.adherence
        cell_tractor_force :=
          (f.cell_tractor_force.set (toUInt32 (o + soh.element_idx)) so.tractor_force).set
            (toUInt32 (o2 + soh2.element_idx)) so2.tractor_force
        cell_boxid :=
          (f.cell_boxid.set (toUInt32 (o + soh.element_idx)) (toUInt32 so.box_idx)).set
            (toUInt32 (o2 + soh2.element_idx)) (toUInt32 so2.box_idx)
        mass := (f.mass.set (toUInt32 (o + soh.element_idx)) so.mass).set
          (toUInt32 (o2 + soh2.element_idx)) so2.mass
        successors :=
          (f.successors.set (toUInt32 (o + soh.element_idx))
            (toUInt32 (o + (successors_ soh).element_idx))).set
            (toUInt32 (o2 + soh2.element_idx)) (toUInt32 (o2 + (successors_ soh2).element_idx))
        offset := f.offset } := by
  have h1 := Foo.call_spherical successors_ f so soh o hflag hs ho hb
  have hb2a := hb2
  simp only [Foo.inBounds, Bool.and_eq_true, decide_eq_true_eq] at hb2a
  have h2 := Foo.call_spherical successors_
    { is_non_spherical_object := false
      cell_positions := f.cell_positions.set (toUInt32 (o + soh.element_idx)) so.position
      cell_diameters := f.cell_diameters.set (toUInt32 (o + soh.element_idx)) so.diameter
      cell_adherence := f.cell_adherence.set (toUInt32 (o + soh.element_idx)) so.adherence
      cell_tractor_force :=
        f.cell_tractor_force.set (toUInt32 (o + soh.element_idx)) so.tractor_force
      cell_boxid := f.cell_boxid.set (toUInt32 (o + soh.element_idx)) (toUInt32 so.box_idx)
      mass := f.mass.set (toUInt32 (o + soh.element_idx)) so.mass
      successors := f.successors.set (toUInt32 (o + soh.element_idx))
        (toUInt32 (o + (successors_ soh).element_idx))
      offset := f.offset }
    so2 soh2 o2 rfl hs2 ho2 (by simp [Foo.inBounds, hb2a])
  simp only [Foo.callSeq, h1, h2]

/-- C11: one call of `Foo::operator()` for a spherical agent on an extractor
whose flag is unset, with the agent's flat index `idx` (line 101) inside the
arrays. The call writes the agent's mass, diameter, adherence, tractor force,
position and box id (as a 32-bit value) at `idx` and leaves every other entry
of these arrays as it was. Two such calls for agents with distinct flat indices
give the same extractor in either order, and it holds both agents' values. -/
theorem C11_extractor_writes_one_slot (successors_ : SoHandle → SoHandle) (f : Foo)
    (so so2 : Cell) (soh soh2 : SoHandle) (idx idx2 : Nat)
    (hflag : f.is_non_spherical_object = false)
    (hs : so.shape = Shape.kSphere) (hs2 : so2.shape = Shape.kSphere)
    (hi : flatIndex f.offset soh = some idx) (hi2 : flatIndex f.offset soh2 = some idx2)
    (hb : f.inBounds idx = true) (hb2 : f.inBounds idx2 = true) :
    (∃ f1, Foo.call successors_ f so soh = FooOutcome.done f1 ∧
      writtenAt f.mass f1.mass idx so.mass ∧
      writtenAt f.cell_diameters f1.cell_diameters idx so.diameter ∧
      writtenAt f.cell_adherence f1.cell_adherence idx so.adherence ∧
      writtenAt f.cell_tractor_force f1.cell_tractor_force idx so.tractor_force ∧
      writtenAt f.cell_positions f1.cell_positions idx so.position ∧
      writtenAt f.cell_boxid f1.cell_boxid idx (toUInt32 so.box_idx) ∧
      (so.box_idx < 2 ^ 32 → writtenAt f.cell_boxid f1.cell_boxid idx so.box_idx)) ∧
    (idx ≠ idx2 →
      Foo.callSeq successors_ [(so, soh), (so2, soh2)] f
        = Foo.callSeq successors_ [(so2, soh2), (so, soh)] f ∧
      ∃ f2, Foo.callSeq successors_ [(so, soh), (so2, soh2)] f = FooOutcome.done f2 ∧
        f2.mass[idx]? = some so.mass ∧ f2.mass[idx2]? = some so2.mass ∧
        f2.cell_positions[idx]? = some so.position ∧
        f2.cell_positions[idx2]? = some so2.position) := by
  obtain ⟨o, ho, rfl⟩ := flatIndex_eq_some hi
  obtain ⟨o2, ho2, rfl⟩ := flatIndex_eq_some hi2
  have hlen := hb
  simp only [Foo.inBounds, Bool.and_eq_true, decide_eq_true_eq] at hlen
  obtain ⟨⟨⟨⟨⟨⟨hl1, hl2⟩, hl3⟩, hl4⟩, hl5⟩, hl6⟩, _⟩ := hlen
  have hlen2 := hb2
  simp only [Foo.inBounds, Bool.and_eq_true, decide_eq_true_eq] at hlen2
  obtain ⟨⟨⟨⟨⟨⟨hm1, _⟩, _⟩, _⟩, hm5⟩, _⟩, _⟩ := hlen2
  constructor
  · refine ⟨_, Foo.call_spherical successors_ f so soh o hflag hs ho hb,
      writtenAt_set _ _ _ hl1, writtenAt_set _ _ _ hl2, writtenAt_set _ _ _ hl3,
      writtenAt_set _ _ _ hl4, writtenAt_set _ _ _ hl5, writtenAt_set _ _ _ hl6, fun hbox => ?_⟩
    obtain ⟨h1, h2, h3⟩ :=
      writtenAt_set f.cell_boxid (toUInt32 (o + soh.element_idx)) (toUInt32 so.box_idx) hl6
    exact ⟨h1, by rw [h2, toUInt32_of_lt hbox], h3⟩
  · intro hne
    rw [Foo.callSeq_pair successors_ f so so2 soh soh2 o o2 hflag hs hs2 ho ho2 hb hb2,
      Foo.callSeq_pair successors_ f so2 so soh2 soh o2 o hflag hs2 hs ho2 ho hb2 hb]
    refine ⟨?_, _, rfl, ?_, ?_, ?_, ?_⟩
    · simp only [List.set_comm _ _ _ hne]
    · simp only [List.getElem?_set_ne (Ne.symm hne), List.getElem?_set_self hl1]
    · exact List.getElem?_set_self (by rw [List.length_set]; exact hm1)
    · simp only [List.getElem?_set_ne (Ne.symm hne), List.getElem?_set_self hl5]
    · exact List.getElem?_set_self (by rw [List.length_set]; exact hm5)

/-- Witness of C11: an extractor for three agents with the offset table
`[0, 1, 2]`, agent `(0, 0)` and agent `(2, 0)`; the two calls commute. -/
theorem C11_extractor_writes_one_slot_witness :
    Foo.callSeq crossSuccessors
        [(sphereAt ⟨1, 2, 3⟩, ⟨0, 0⟩), (sphereAt ⟨4, 5, 6⟩, ⟨2, 0⟩)] (Foo.init 3 [0, 1, 2])
      = Foo.callSeq crossSuccessors
        [(sphereAt ⟨4, 5, 6⟩, ⟨2, 0⟩), (sphereAt ⟨1, 2, 3⟩, ⟨0, 0⟩)] (Foo.init 3 [0, 1, 2]) :=
  ((C11_extractor_writes_one_slot crossSuccessors (Foo.init 3 [0, 1, 2])
    (sphereAt ⟨1, 2, 3⟩) (sphereAt ⟨4, 5, 6⟩) ⟨0, 0⟩ ⟨2, 0⟩ 0 2 rfl rfl rfl (by decide)
    (by decide) (by decide) (by decide)).2 (by decide)).1

/-! ## A single NUMA node -/

/-- C13: with exactly one NUMA node holding `n` agents the offset table is
`[0]`, and for every agent of that node the flat index of `Foo::operator()` is
the element index. `Foo::operator()` stores the agent's attributes at that
index and `Bar::operator()` reads the displacement at that index. -/
theorem C13_single_node_same_slot (n : Nat) (soh : SoHandle)
    (hv : validHandle [n] soh) (h32 : soh.element_idx < 2 ^ 32) :
    buildOffset [n] = [0] ∧
    flatIndex (buildOffset [n]) soh = some soh.element_idx ∧
    (∀ (successors_ : SoHandle → SoHandle) (f : Foo) (so : Cell),
      f.offset = buildOffset [n] → f.is_non_spherical_object = false →
      so.shape = Shape.kSphere → f.inBounds soh.element_idx = true →
      ∃ f1, Foo.call successors_ f so soh = FooOutcome.done f1 ∧
        f1.cell_positions[soh.element_idx]? = some so.position ∧
        f1.mass[soh.element_idx]? = some so.mass ∧
        f1.cell_diameters[soh.element_idx]? = some so.diameter) ∧
    (∀ (b : Bar) (so : Cell) (m : Double3),
      b.cell_movements[soh.element_idx]? = some m → b.bound_space = false →
      b.call so soh = some (so.UpdatePosition m)) := by
  have hnode : soh.numa_node = 0 := by
    have h := hv.1
    simp at h
    exact h
  have hoff : buildOffset [n] = [0] := rfl
  have hidx : toUInt32 (0 + soh.element_idx) = soh.element_idx := by
    rw [Nat.zero_add]
    exact toUInt32_of_lt h32
  refine ⟨hoff, ?_, ?_, ?_⟩
  · rw [hoff]
    simp only [flatIndex, hnode, List.get?_cons_zero, Option.map_some', hidx]
  · intro successors_ f so hf hflag hs hb
    have hget : f.offset.get? soh.numa_node = some 0 := by
      rw [hf, hoff, hnode]
      rfl
    have hlen := hb
    simp only [Foo.inBounds, Bool.and_eq_true, decide_eq_true_eq] at hlen
    rw [← hidx] at hb
    refine ⟨_, Foo.call_spherical successors_ f so soh 0 hflag hs hget hb, ?_⟩
    rw [hidx]
    simp [hlen]
  · intro b so m hm hbs
    have hm1 : b.cell_movements.get? soh.element_idx = some m := by
      rw [List.get?_eq_getElem?]
      exact hm
    simp only [Bar.call, hm1, hbs]
    rfl

/-- Witness of C13: one NUMA node with 5 agents, agent `(0, 3)`. -/
theorem C13_single_node_same_slot_witness :
    validHandle [5] ⟨0, 3⟩ ∧ buildOffset [5] = [0] ∧
      flatIndex (buildOffset [5]) ⟨0, 3⟩ = some 3 :=
  ⟨by decide, (C13_single_node_same_slot 5 ⟨0, 3⟩ (by decide) (by decide)).1,
    (C13_single_node_same_slot 5 ⟨0, 3⟩ (by decide) (by decide)).2.1⟩

/-! ## The sticky flag -/

/-- C14: the non-spherical flag is never cleared. A call of `Foo::operator()`
for a non-spherical agent goes through `Log::Fatal` and leaves the extractor
with the flag set and every array as it was; every later call on that
extractor, for any agent, goes through `Log::Fatal` again and leaves the
extractor unchanged, so it writes to no attribute or successor array. -/
theorem C14_non_spherical_flag_is_sticky (successors_ : SoHandle → SoHandle) (f : Foo)
    (so : Cell) (soh : SoHandle) (hns : so.shape ≠ Shape.kSphere) :
    (∀ so1 : Cell, IsNonSphericalObjectPresent so1 true = true) ∧
    Foo.call successors_ f so soh
      = FooOutcome.fatal { f with is_non_spherical_object := true } ∧
    ∀ (so2 : Cell) (soh2 : SoHandle),
      Foo.call successors_ { f with is_non_spherical_object := true } so2 soh2
        = FooOutcome.fatal { f with is_non_spherical_object := true } := by
  refine ⟨fun so1 => ?_, ?_, fun so2 soh2 => ?_⟩
  · simp [IsNonSphericalObjectPresent]
  · simp [Foo.call, LogFatal, IsNonSphericalObjectPresent, hns]
  · simp [Foo.call, LogFatal, IsNonSphericalObjectPresent]

/-- Witness of C14: after a call for a cylinder, a call for a sphere on the
same extractor writes nothing. -/
theorem C14_non_spherical_flag_is_sticky_witness :
    Foo.call crossSuccessors { Foo.init 2 [0] with is_non_spherical_object := true }
        (sphereAt ⟨1, 2, 3⟩) ⟨0, 1⟩
      = FooOutcome.fatal { Foo.init 2 [0] with is_non_spherical_object := true } :=
  (C14_non_spherical_flag_is_sticky crossSuccessors (Foo.init 2 [0]) (cylinderAt ⟨0, 0, 0⟩)
    ⟨0, 0⟩ (by decide)).2.2 (sphereAt ⟨1, 2, 3⟩) ⟨0, 1⟩

/-! ## The commit phase reads in bounds -/

theorem validHandle_lt_total (counts : List Nat) (soh : SoHandle) (hv : validHandle counts soh) :
    soh.element_idx < GetNumSimObjectsTotal counts := by
  obtain ⟨hd, hi⟩ := hv
  unfold GetNumSimObjects at hi
  rw [List.getD_eq_getElem counts 0 hd] at hi
  have hle : counts[soh.numa_node] ≤ counts.sum :=
    List.le_sum_of_mem (List.getElem_mem hd)
  unfold GetNumSimObjectsTotal
  omega

theorem Bar.call_in_bounds (b : Bar) (so : Cell) (soh : SoHandle)
    (h : soh.element_idx < b.cell_movements.length) : ∃ so1, b.call so soh = some so1 := by
  have hm : b.cell_movements.get? soh.element_idx = some (b.cell_movements.get ⟨_, h⟩) :=
    List.get?_eq_get h
  unfold Bar.call
  simp only [hm]
  split_ifs
  · exact ⟨_, rfl⟩
  · exact ⟨_, rfl⟩

theorem Bar.applyNode_defined (b : Bar) (numa_node : Nat) (node : List Cell) :
    ∀ i : Nat, i + node.length ≤ b.cell_movements.length →
      ∃ r, Bar.applyNode b numa_node i node = some r := by
  induction node with
  | nil => intro i _; exact ⟨[], rfl⟩
  | cons so rest ih =>
    intro i hi
    rw [List.length_cons] at hi
    obtain ⟨so1, h1⟩ := Bar.call_in_bounds b so ⟨numa_node, i⟩ (by show i < _; omega)
    obtain ⟨r, h2⟩ := ih (i + 1) (by omega)
    refine ⟨so1 :: r, ?_⟩
    unfold Bar.applyNode
    rw [h1, h2]

theorem Bar.applyAll_defined (b : Bar) (sim_objects : List (List Cell)) :
    ∀ numa_node : Nat, (∀ node ∈ sim_objects, node.length ≤ b.cell_movements.length) →
      ∃ r, Bar.applyAll b numa_node sim_objects = some r := by
  induction sim_objects with
  | nil => intro d _; exact ⟨[], rfl⟩
  | cons node rest ih =>
    intro d h
    obtain ⟨r1, h1⟩ := Bar.applyNode_defined b d node 0
      (by rw [Nat.zero_add]; exact h node (List.mem_cons_self _ _))
    obtain ⟨r2, h2⟩ := ih (d + 1) (fun nd hnd => h nd (List.mem_cons_of_mem _ hnd))
    refine ⟨r1 :: r2, ?_⟩
    unfold Bar.applyAll
    rw [h1, h2]

/-- C15: for per-node counts whose sum is `total` and every handle `(d, i)` with
`i < count[d]`, the index `i` at which `Bar::operator()` reads is below `total`,
so the read from a displacement array of `total` entries succeeds. When `total`
fits in 32 bits, the commit phase over all agents of a population with these
counts makes no read outside the array `cell_movements` of line 139. -/
theorem C15_commit_read_in_bounds (counts : List Nat) (total : Nat) (soh : SoHandle)
    (hsum : GetNumSimObjectsTotal counts = total) (hv : validHandle counts soh) :
    soh.element_idx < total ∧
    (∀ (b : Bar) (so : Cell), b.cell_movements.length = total →
      ∃ so1, b.call so soh = some so1) ∧
    (total < 2 ^ 32 → ∀ (b : Bar) (sim_objects : List (List Cell)),
      sim_objects.map List.length = counts →
      b.cell_movements.length = toUInt32 (GetNumSimObjectsTotal counts) →
      ∃ r, Bar.applyAll b 0 sim_objects = some r) := by
  have hlt : soh.element_idx < total := hsum ▸ validHandle_lt_total counts soh hv
  refine ⟨hlt, fun b so hlen => Bar.call_in_bounds b so soh (hlen ▸ hlt), ?_⟩
  intro hfit b sim_objects hcounts hlen
  rw [hsum, toUInt32_of_lt hfit] at hlen
  apply Bar.applyAll_defined b sim_objects 0
  intro node hnode
  have hmem : node.length ∈ counts := hcounts ▸ List.mem_map_of_mem List.length hnode
  have hle : node.length ≤ counts.sum := List.le_sum_of_mem hmem
  unfold GetNumSimObjectsTotal at hsum
  omega

/-- Witness of C15: counts `[2, 3]`, total 5, agent `(1, 2)`. -/
theorem C15_commit_read_in_bounds_witness :
    (2 : Nat) < 5 ∧
    ∀ (b : Bar) (so : Cell), b.cell_movements.length = 5 →
      ∃ so1, b.call so ⟨1, 2⟩ = some so1 :=
  ⟨(C15_commit_read_in_bounds [2, 3] 5 ⟨1, 2⟩ (by decide) (by decide)).1,
    (C15_commit_read_in_bounds [2, 3] 5 ⟨1, 2⟩ (by decide) (by decide)).2.1⟩

end bdm
